import Mathlib

/-!
Shallow embedding of the playback / playlist / control core of
`src/app/RadioApp.py` (class `RadioApp` and its nested classes
`AudioPlayer`, `SwitchControl`, `ControlGroup`).

Python integers are modelled as `Int` (Python `%` and `//` agree with
Lean's Euclidean `%` and `/` on the nonnegative operands and positive
divisors that occur here; where negatives occur, Python's flooring `%`
with a positive modulus coincides with Lean's `emod`).  Python list
indexing (`l[i]`, negative wrap-around, `IndexError` otherwise) is
`pyGet`; `list.index(x)` (`ValueError` when absent) is `pyIndex`.
Fallible actions return `Except RState …`; the `error` payload is the
state at the moment the exception escapes, since Python keeps all
mutations performed before the raise.  The external collaborators are
parameters: `env : String → Option Nat` gives the frame count of a
wave file that opens successfully (`none` = `wave.open` raises), and
`random.shuffle`'s outcome is the explicit `shuffled` argument of
`random_action`.
-/

/-- Python `l[i]` for `i : Int`: nonnegative indexes read directly,
negative indexes wrap once from the end, anything else is an
`IndexError` (`none`). -/
def pyGet {α : Type} (l : List α) (i : Int) : Option α :=
  if 0 ≤ i then l.get? i.toNat
  else if -(l.length : Int) ≤ i then l.get? (i + l.length).toNat
  else none

/-- Python `l.index(x)`: position of the first occurrence, `none` for
the `ValueError` raised when `x` is absent. -/
def pyIndex : List Int → Int → Option Nat
  | [], _ => none
  | a :: as, x => if a = x then some 0 else (pyIndex as x).map (· + 1)

/-- State of `RadioApp.AudioPlayer`: the frame counters, whether a
pyaudio stream object is held (`__stream is not None`), whether that
stream is running (`is_active`), and the auto-advance flag. -/
structure PlayerState where
  total_frames : Nat
  played_frames : Nat
  has_stream : Bool
  running : Bool
  is_continuing : Bool
deriving Repr, DecidableEq

/-- `AudioPlayer.is_active`: a stream is held and it is active. -/
def PlayerState.is_active (p : PlayerState) : Bool :=
  p.has_stream && p.running

/-- `AudioPlayer.load_file` after a successful `wave.open`: counters
reset from the container header, a fresh stream armed (pyaudio `open`
starts it); `is_continuing` is untouched. -/
def load_ok (frames : Nat) (p : PlayerState) : PlayerState :=
  { total_frames := frames, played_frames := 0, has_stream := true,
    running := true, is_continuing := p.is_continuing }

/-- `AudioPlayer.load_file` itself: `wave.open` raises (the `none`
case of `env`) before any mutation, so the erroneous result carries
the unchanged player. -/
def load_file (env : String → Option Nat) (path : String) (p : PlayerState) :
    Except PlayerState PlayerState :=
  match env path with
  | none => .error p
  | some n => .ok (load_ok n p)

/-- `AudioPlayer.start_stream`. -/
def start_stream (p : PlayerState) : PlayerState × Bool :=
  if p.has_stream then
    ({ p with running := true, is_continuing := true }, true)
  else (p, false)

/-- `AudioPlayer.pause_stream`. -/
def pause_stream (p : PlayerState) : PlayerState × Bool :=
  if p.has_stream then
    ({ p with running := false, is_continuing := false }, true)
  else (p, false)

/-- `AudioPlayer.stop_stream`: close and drop the stream, zero both
counters; a no-op returning `false` when nothing is held. -/
def stop_stream (p : PlayerState) : PlayerState × Bool :=
  if p.has_stream then
    ({ total_frames := 0, played_frames := 0, has_stream := false,
       running := false, is_continuing := false }, true)
  else (p, false)

/-- `AudioPlayer.__stream_callback`: unconditionally add the requested
`frame_count` to `played_frames` (the code adds the request size, not
the number of frames `readframes` actually returned), and report
`paComplete` (`true`) when the counter has reached `total_frames`. -/
def streamCallback (frame_count : Nat) (p : PlayerState) : PlayerState × Bool :=
  let p' := { p with played_frames := p.played_frames + frame_count }
  (p', decide (p'.total_frames ≤ p'.played_frames))

/-- `AudioPlayer.progress`: `none` when no frames are known, `1` once
the counter has caught up, otherwise the exact ratio. -/
def progress (p : PlayerState) : Option ℚ :=
  if p.total_frames = 0 then none
  else if p.total_frames ≤ p.played_frames then some 1
  else some ((p.played_frames : ℚ) / (p.total_frames : ℚ))

/-- State of the `RadioApp` controller around the player: the scanned
file list, the play-order permutation, browse cursor, play cursor and
shuffle flag. -/
structure RState where
  files : List String
  playlist : List Int
  selected_index : Int
  playing_index : Int
  is_random : Bool
  player : PlayerState
deriving Repr, DecidableEq

/-- `os.path.join(self.__directory, f)` with the fixed `media`
directory. -/
def mediaPath (f : String) : String := "media/" ++ f

/-- `RadioApp.play_action`. -/
def play_action (env : String → Option Nat) (s : RState) :
    Except RState (RState × Bool) :=
  if s.playlist.length = 0 then .ok (s, false)
  else
    match pyGet s.playlist s.playing_index with
    | none => .error s
    | some cur =>
      let step1 : Except RState RState :=
        if s.selected_index = cur then .ok s
        else
          match pyIndex s.playlist s.selected_index with
          | none => .error s
          | some j =>
            let s1 := { s with playing_index := (j : Int) }
            .ok (if s1.player.has_stream then
                   { s1 with player := (stop_stream s1.player).1 }
                 else s1)
      match step1 with
      | .error e => .error e
      | .ok s2 =>
        let step2 : Except RState RState :=
          if s2.player.has_stream then .ok s2
          else
            match pyGet s2.playlist s2.playing_index with
            | none => .error s2
            | some t =>
              match pyGet s2.files t with
              | none => .error s2
              | some f =>
                match env (mediaPath f) with
                | none => .error s2
                | some n => .ok { s2 with player := load_ok n s2.player }
        match step2 with
        | .error e => .error e
        | .ok s3 => .ok ({ s3 with player := (start_stream s3.player).1 }, true)

/-- `RadioApp.pause_action`. -/
def pause_action (s : RState) : RState × Bool :=
  let (p, b) := pause_stream s.player
  ({ s with player := p }, b)

/-- `RadioApp.stop_action`. -/
def stop_action (s : RState) : RState :=
  { s with player := (stop_stream s.player).1 }

/-- `RadioApp.prev_action`. -/
def prev_action (env : String → Option Nat) (s : RState) :
    Except RState RState :=
  if s.files.length = 0 then .ok s
  else
    let p := (s.playing_index - 1) % (s.files.length : Int)
    match pyGet s.playlist p with
    | none => .error { s with playing_index := p }
    | some sel =>
      let s1 := { s with playing_index := p, selected_index := sel }
      if s1.player.is_active then
        (play_action env (stop_action s1)).map (·.1)
      else .ok s1

/-- `RadioApp.skip_action`. -/
def skip_action (env : String → Option Nat) (s : RState) :
    Except RState RState :=
  if s.files.length = 0 then .ok s
  else
    let p := (s.playing_index + 1) % (s.files.length : Int)
    match pyGet s.playlist p with
    | none => .error { s with playing_index := p }
    | some sel =>
      let s1 := { s with playing_index := p, selected_index := sel }
      if s1.player.is_active then
        (play_action env (stop_action s1)).map (·.1)
      else .ok s1

/-- `RadioApp.random_action`: set the shuffle flag, shuffle the play
order in place (`shuffled` is `random.shuffle`'s outcome), then look
the selected track up in the new order — `list.index` raises
`ValueError` when it is absent, with the first two mutations kept. -/
def random_action (shuffled : List Int) (s : RState) :
    Except RState (RState × Bool) :=
  let s1 := { s with is_random := true, playlist := shuffled }
  match pyIndex shuffled s.selected_index with
  | none => .error s1
  | some i => .ok ({ s1 with playing_index := (i : Int) }, true)

/-- `RadioApp.order_action`. -/
def order_action (s : RState) : RState × Bool :=
  ({ s with is_random := false,
            playlist := (List.range s.files.length).map Int.ofNat,
            playing_index := s.selected_index }, true)

/-- `RadioApp.__call_next`: the deferred completion handler. -/
def call_next (env : String → Option Nat) (s : RState) :
    Except RState RState :=
  if s.player.is_continuing = true ∧ 0 < s.files.length then
    let p := (s.playing_index + 1) % (s.files.length : Int)
    match pyGet s.playlist p with
    | none => .error { s with playing_index := p }
    | some sel =>
      let s1 := { s with playing_index := p, selected_index := sel }
      let s2 := { s1 with player := (stop_stream s1.player).1 }
      match pyGet s2.files sel with
      | none => .error s2
      | some f =>
        match env (mediaPath f) with
        | none => .error s2
        | some n =>
          let s3 := { s2 with player := load_ok n s2.player }
          .ok { s3 with player := (start_stream s3.player).1 }
  else .ok s

/-- `RadioApp.on_key_up`. -/
def on_key_up (s : RState) : RState :=
  { s with selected_index := max (s.selected_index - 1) 0 }

/-- `RadioApp.on_key_down`. -/
def on_key_down (s : RState) : RState :=
  { s with selected_index := min (s.selected_index + 1) ((s.files.length : Int) - 1) }

/-- `RadioApp.decrease_volume_action`, as the map from the mixer's
current percentage to the percentage it sets (amixer get/set assumed
to succeed; `__VOLUME_STEP = 10`). -/
def decrease_volume_action (v : Int) : Int :=
  if v % 10 = 0 then max (v - 10) 0
  else max (v / 10 * 10 - 10) 0

/-- `RadioApp.increase_volume_action`, same convention. -/
def increase_volume_action (v : Int) : Int :=
  if v % 10 = 0 then min (v + 10) 100
  else min ((v + 10) / 10 * 10 + 10) 100

/-- `RadioApp.SwitchControl.on_select`, abstracted over the two
callbacks (`_on_select` fires when switched, `_on_switched_select`
when unswitched); each callback may mutate app state `S` and reports
whether the transition happened.  Result: new app state and the new
`_is_switched`. -/
def switch_on_select {S : Type} (cb_switched cb_unswitched : S → S × Bool)
    (app : S) (sw : Bool) : S × Bool :=
  if sw then
    let r := cb_switched app
    (r.1, if r.2 then !sw else sw)
  else
    let r := cb_unswitched app
    (r.1, if r.2 then !sw else sw)

/-! ### Helper lemmas -/

lemma pyIndex_of_mem {l : List Int} {a : Int} (h : a ∈ l) :
    ∃ k, pyIndex l a = some k := by
  induction l with
  | nil => cases h
  | cons b bs ih =>
    by_cases hb : b = a
    · exact ⟨0, by simp [pyIndex, hb]⟩
    · have hmem : a ∈ bs := by
        rcases List.mem_cons.mp h with h' | h'
        · exact absurd h'.symm hb
        · exact h'
      obtain ⟨k, hk⟩ := ih hmem
      exact ⟨k + 1, by simp [pyIndex, hb, hk]⟩

/-! ### Claims -/

/-- C1 (amended): on a mixer value `v` in 0..100 that is a multiple of
the step 10, each action moves one full step, clamped to [0,100]; on an
unaligned `v`, decrease sets `max(v//10*10 - 10, 0)` as the claim said,
but increase sets `min(v//10*10 + 20, 100)` — it rounds *up* to the
next multiple of 10 and then adds one further step. -/
theorem volume_step_amended (v : Int) (h0 : 0 ≤ v) (h1 : v ≤ 100) :
    (v % 10 = 0 → increase_volume_action v = min (v + 10) 100 ∧
                  decrease_volume_action v = max (v - 10) 0) ∧
    (v % 10 ≠ 0 → increase_volume_action v = min (v / 10 * 10 + 20) 100 ∧
                  decrease_volume_action v = max (v / 10 * 10 - 10) 0) := by
  constructor
  · intro h
    simp [increase_volume_action, decrease_volume_action, h]
  · intro h
    unfold increase_volume_action decrease_volume_action
    rw [if_neg h, if_neg h]
    have h10 : (v + 10) / 10 = v / 10 + 1 := by omega
    have h20 : (v / 10 + 1) * 10 + 10 = v / 10 * 10 + 20 := by ring
    rw [h10, h20]
    exact ⟨rfl, rfl⟩

/-- C1 witness: at `v = 95` the amended claim applies and gives
increase to 100 and decrease to 80. -/
theorem volume_step_amended_witness :
    increase_volume_action 95 = min (95 / 10 * 10 + 20 : Int) 100 ∧
    decrease_volume_action 95 = max (95 / 10 * 10 - 10 : Int) 0 :=
  (volume_step_amended 95 (by decide) (by decide)).2 (by decide)

/-- C1 counterexample: the claim's formula for an unaligned increase,
`min(v//10*10 + 10, 100)`, is wrong at `v = 85`: it predicts 90 while
the code sets 100. -/
theorem volume_step_counterexample :
    increase_volume_action 85 = 100 ∧
    min ((85 : Int) / 10 * 10 + 10) 100 = 90 := by decide

/-- C2 (amended): on an empty playlist `play_action` returns `false`
with the state untouched and no exception, but `random_action`
(shuffle-on) does not return a boolean at all: it raises `ValueError`
from `list.index` after having already set the shuffle flag. -/
theorem empty_playlist_actions (env : String → Option Nat) (s : RState)
    (h : s.playlist = []) :
    play_action env s = .ok (s, false) ∧
    random_action [] s = .error { s with is_random := true, playlist := [] } := by
  constructor
  · simp [play_action, h]
  · simp [random_action, pyIndex]

/-- C2 witness: concrete empty state. -/
theorem empty_playlist_actions_witness :
    play_action (fun _ => none)
        (RState.mk [] [] 0 0 false (PlayerState.mk 0 0 false false false)) =
      .ok (RState.mk [] [] 0 0 false (PlayerState.mk 0 0 false false false), false) :=
  (empty_playlist_actions (fun _ => none)
    (RState.mk [] [] 0 0 false (PlayerState.mk 0 0 false false false)) rfl).1

/-- C2 counterexample: `shuffle_on` on the empty playlist raises
(`.error`) instead of returning boolean `false`, and the shuffle flag
mutation survives the exception. -/
theorem empty_playlist_counterexample :
    random_action [] (RState.mk [] [] 0 0 false (PlayerState.mk 0 0 false false false)) =
      .error (RState.mk [] [] 0 0 true (PlayerState.mk 0 0 false false false)) := rfl

/-- C3 (amended): `load` zeroes `played_frames`, `stop` zeroes both
counters, but the hardware pull-callback increments `played_frames` by
the number of frames *requested*, not the number actually read, so
`played_frames` may pass `total_frames`; only `0 ≤ played_frames`
survives (trivially, counters being naturals). -/
theorem frame_counter_amended (p q : PlayerState) (n : Nat)
    (env : String → Option Nat) (path : String) :
    ((streamCallback n p).1.played_frames = p.played_frames + n) ∧
    (load_file env path p = .ok q → q.played_frames = 0) ∧
    (p.has_stream = true →
      (stop_stream p).1.played_frames = 0 ∧ (stop_stream p).1.total_frames = 0) := by
  refine ⟨rfl, ?_, ?_⟩
  · intro h
    unfold load_file at h
    cases henv : env path with
    | none => rw [henv] at h; cases h
    | some m => rw [henv] at h; cases h; rfl
  · intro h
    simp [stop_stream, h]

/-- C3 witness: a successful load resets the counter. -/
theorem frame_counter_amended_witness :
    (load_ok 10 (PlayerState.mk 0 0 false false false)).played_frames = 0 :=
  (frame_counter_amended (PlayerState.mk 0 0 false false false)
    (load_ok 10 (PlayerState.mk 0 0 false false false)) 0
    (fun _ => some 10) "media/a.wav").2.1 rfl

/-- C3 counterexample: with 5 total frames, 3 played and an 4-frame
request (only 2 frames remain readable), the callback sets
`played_frames = 7 > 5`, breaking the claimed invariant
`played_frames ≤ total_frames`. -/
theorem frame_counter_counterexample :
    (streamCallback 4 (PlayerState.mk 5 3 true true true)).1.played_frames = 7 ∧
    ¬ (streamCallback 4 (PlayerState.mk 5 3 true true true)).1.played_frames ≤
        (streamCallback 4 (PlayerState.mk 5 3 true true true)).1.total_frames := by
  decide

/-- C4: when the continue flag is down, or the track list is empty,
the completion handler returns the state unchanged — playing position,
selection, play order and the whole player state included. -/
theorem call_next_frame (env : String → Option Nat) (s : RState)
    (h : s.player.is_continuing = false ∨ s.files.length = 0) :
    call_next env s = .ok s := by
  have hneg : ¬ (s.player.is_continuing = true ∧ 0 < s.files.length) := by
    rcases h with h | h <;> simp [h]
  unfold call_next
  rw [if_neg hneg]

/-- C4 witness: a paused concrete state is left untouched. -/
theorem call_next_frame_witness :
    call_next (fun _ => some 5)
        (RState.mk ["a.wav"] [0] 0 0 false (PlayerState.mk 9 4 true false false)) =
      .ok (RState.mk ["a.wav"] [0] 0 0 false (PlayerState.mk 9 4 true false false)) :=
  call_next_frame (fun _ => some 5)
    (RState.mk ["a.wav"] [0] 0 0 false (PlayerState.mk 9 4 true false false))
    (Or.inl rfl)

/-- C5 (amended): whenever the selected track occurs in the shuffled
order — in particular on any nonempty playlist in a valid state —
`shuffle_on` succeeds and a following `shuffle_off` restores the
identity play order `[0..N-1]` and makes `playing_index` equal to the
(unchanged) `selected_index`.  On the empty playlist `shuffle_on`
raises instead (see the counterexample), so the claim's "for every
playlist" fails. -/
theorem shuffle_then_order (s : RState) (shuffled : List Int)
    (hmem : s.selected_index ∈ shuffled) :
    ∃ t : RState, random_action shuffled s = .ok (t, true) ∧
      (order_action t).1.playlist = (List.range s.files.length).map Int.ofNat ∧
      (order_action t).1.playing_index = (order_action t).1.selected_index ∧
      (order_action t).1.selected_index = s.selected_index := by
  obtain ⟨k, hk⟩ := pyIndex_of_mem hmem
  refine ⟨{ s with is_random := true, playlist := shuffled, playing_index := (k : Int) }, ?_, ?_, ?_, ?_⟩
  · simp [random_action, hk]
  · simp [order_action]
  · simp [order_action]
  · simp [order_action]

/-- C5 witness: a two-track playlist shuffled to `[1, 0]`. -/
theorem shuffle_then_order_witness :
    ∃ t : RState,
      random_action [1, 0]
          (RState.mk ["a.wav", "b.wav"] [0, 1] 0 0 false
            (PlayerState.mk 0 0 false false false)) = .ok (t, true) ∧
      (order_action t).1.playlist =
        (List.range (["a.wav", "b.wav"] : List String).length).map Int.ofNat ∧
      (order_action t).1.playing_index = (order_action t).1.selected_index ∧
      (order_action t).1.selected_index = 0 :=
  shuffle_then_order
    (RState.mk ["a.wav", "b.wav"] [0, 1] 0 0 false
      (PlayerState.mk 0 0 false false false)) [1, 0] (by decide)

/-- C5 counterexample: on the empty playlist the shuffle-then-order
composite cannot even complete — `random_action` raises `ValueError`
(an `.error` result), so it does not leave any play order behind. -/
theorem shuffle_then_order_counterexample :
    random_action [] (RState.mk [] [] (-1) 0 false (PlayerState.mk 0 0 false false false)) =
      .error (RState.mk [] [] (-1) 0 true (PlayerState.mk 0 0 false false false)) := rfl

/-- C7: a `SwitchControl`'s `on_select` flips `is_switched` exactly
when the callback it invoked (deactivate when switched, activate when
unswitched) returned `true`; a `false` return leaves it unchanged in
either direction. -/
theorem switch_on_select_spec {S : Type} (cb_switched cb_unswitched : S → S × Bool)
    (app : S) (sw : Bool) :
    (sw = false → (cb_unswitched app).2 = false →
      (switch_on_select cb_switched cb_unswitched app sw).2 = false) ∧
    (sw = true → (cb_switched app).2 = false →
      (switch_on_select cb_switched cb_unswitched app sw).2 = true) ∧
    ((switch_on_select cb_switched cb_unswitched app sw).2 = !sw ↔
      (if sw then cb_switched app else cb_unswitched app).2 = true) := by
  cases sw <;>
    simp only [switch_on_select, Bool.false_eq_true, if_false, if_true] <;>
    cases h : (cb_unswitched app).2 <;> cases h' : (cb_switched app).2 <;>
    simp [h, h']

/-- C7 witness: an unswitched control whose activate callback declines
stays unswitched. -/
theorem switch_on_select_spec_witness :
    (switch_on_select (fun n : Nat => (n, true)) (fun n : Nat => (n, false))
      0 false).2 = false :=
  (switch_on_select_spec (fun n : Nat => (n, true)) (fun n : Nat => (n, false))
    0 false).1 rfl rfl

/-- C8: `progress` is `none` exactly when `total_frames = 0`, equals
`min 1 (played/total)` otherwise, and never exceeds 1. -/
theorem progress_spec (p : PlayerState) :
    (progress p = none ↔ p.total_frames = 0) ∧
    (p.total_frames ≠ 0 →
      progress p = some (min 1 ((p.played_frames : ℚ) / (p.total_frames : ℚ)))) ∧
    (∀ q : ℚ, progress p = some q → q ≤ 1) := by
  unfold progress
  by_cases h0 : p.total_frames = 0
  · simp [h0]
  · have hpos : (0 : ℚ) < (p.total_frames : ℚ) := by
      exact_mod_cast Nat.pos_of_ne_zero h0
    by_cases hle : p.total_frames ≤ p.played_frames
    · have h1 : (1 : ℚ) ≤ (p.played_frames : ℚ) / (p.total_frames : ℚ) :=
        (one_le_div hpos).mpr (by exact_mod_cast hle)
      simp only [if_neg h0, if_pos hle]
      refine ⟨by simp [h0], fun _ => ?_, fun q hq => ?_⟩
      · rw [min_eq_left h1]
      · cases hq; exact le_refl 1
    · have h1 : (p.played_frames : ℚ) / (p.total_frames : ℚ) ≤ 1 :=
        (div_le_one hpos).mpr (by exact_mod_cast Nat.le_of_lt (Nat.lt_of_not_le hle))
      simp only [if_neg h0, if_neg hle]
      refine ⟨by simp [h0], fun _ => ?_, fun q hq => ?_⟩
      · rw [min_eq_right h1]
      · cases hq; exact h1

/-- C8 witness: half-played track reports exactly `1/2`. -/
theorem progress_spec_witness :
    progress (PlayerState.mk 2 1 true true true) = some (1 / 2 : ℚ) := by
  have h := (progress_spec (PlayerState.mk 2 1 true true true)).2.1 (by decide)
  rw [h]
  norm_num [min_def]

/-- C9: `play` is not atomic when loading fails.  With a selection
differing from the track at the playing position and an unreadable
file, `play_action` relocates `playing_index` to the selection's slot,
stops (and zeroes) the previously loaded stream, and then propagates
the load exception with neither mutation rolled back. -/
theorem play_action_not_atomic (env : String → Option Nat) (s : RState)
    (cur t : Int) (j : Nat) (f : String)
    (hlen : s.playlist.length ≠ 0)
    (hcur : pyGet s.playlist s.playing_index = some cur)
    (hne : s.selected_index ≠ cur)
    (hidx : pyIndex s.playlist s.selected_index = some j)
    (hstream : s.player.has_stream = true)
    (hget : pyGet s.playlist (j : Int) = some t)
    (hfile : pyGet s.files t = some f)
    (henv : env (mediaPath f) = none) :
    play_action env s = .error { s with playing_index := (j : Int), player := PlayerState.mk 0 0 false false false } := by
  simp [play_action, stop_stream, hlen, hcur, hne, hidx, hstream, hget, hfile, henv]

/-- C9 witness: two tracks, track 0 loaded and playing, track 1
selected but unreadable: play fails, leaving the position moved to 1
and the player stopped. -/
theorem play_action_not_atomic_witness :
    play_action (fun _ => none)
        (RState.mk ["a.wav", "b.wav"] [0, 1] 1 0 false (PlayerState.mk 10 3 true true true)) =
      .error (RState.mk ["a.wav", "b.wav"] [0, 1] 1 1 false (PlayerState.mk 0 0 false false false)) := by
  have h := play_action_not_atomic (fun _ => none)
    (RState.mk ["a.wav", "b.wav"] [0, 1] 1 0 false (PlayerState.mk 10 3 true true true))
    0 1 1 "b.wav" (by decide) (by decide) (by decide) (by decide) rfl (by decide)
    (by decide) rfl
  simpa using h

/-- C10: with an empty track list, one `on_key_down` from the initial
selection 0 sets `selected_index` to `-1` (outside any valid range),
while `on_key_up` keeps it at 0. -/
theorem key_nav_empty (s : RState) (hf : s.files = []) (hs : s.selected_index = 0) :
    (on_key_down s).selected_index = -1 ∧ (on_key_up s).selected_index = 0 := by
  constructor
  · simp [on_key_down, hf, hs]
  · simp [on_key_up, hs]

/-- C10 witness: the initial empty-library state. -/
theorem key_nav_empty_witness :
    (on_key_down (RState.mk [] [] 0 0 false (PlayerState.mk 0 0 false false false))).selected_index = -1 ∧
    (on_key_up (RState.mk [] [] 0 0 false (PlayerState.mk 0 0 false false false))).selected_index = 0 :=
  key_nav_empty (RState.mk [] [] 0 0 false (PlayerState.mk 0 0 false false false)) rfl rfl

/-! ### Navigation round-trip (C6) -/

lemma pyGet_some {α : Type} (l : List α) (i : Int) (h0 : 0 ≤ i)
    (h1 : i.toNat < l.length) : ∃ a, pyGet l i = some a ∧ a ∈ l := by
  unfold pyGet
  rw [if_pos h0]
  refine ⟨l.get ⟨i.toNat, h1⟩, ?_, List.get_mem l _ _⟩
  exact List.get?_eq_get h1

lemma emod_shift_add (a b n : Int) : (a % n + b) % n = (a + b) % n := by
  rw [Int.add_emod, Int.emod_emod_of_dvd _ dvd_rfl, ← Int.add_emod]

lemma emod_shift_sub (a b n : Int) : (a % n - b) % n = (a - b) % n := by
  rw [Int.sub_emod, Int.emod_emod_of_dvd _ dvd_rfl, ← Int.sub_emod]

/-- `play_action` in the situation navigation leaves behind: the
selection equals the track at the playing position, which is a valid
track index, and every file loads; it then succeeds touching only the
player. -/
lemma play_action_aligned (env : String → Option Nat) (s : RState) (sel : Int)
    (hN : 0 < s.files.length)
    (hlen : s.playlist.length = s.files.length)
    (hcur : pyGet s.playlist s.playing_index = some sel)
    (hsel : s.selected_index = sel)
    (h0 : 0 ≤ sel) (h1 : sel < (s.files.length : Int))
    (henv : ∀ f ∈ s.files, (env (mediaPath f)).isSome = true) :
    ∃ p', play_action env s = .ok ({ s with player := p' }, true) := by
  have hne : ¬ s.playlist.length = 0 := by omega
  obtain ⟨f, hf, hfmem⟩ := pyGet_some s.files sel h0 (by omega)
  cases hstream : s.player.has_stream with
  | true =>
    refine ⟨(start_stream s.player).1, ?_⟩
    simp [play_action, hne, hcur, hsel, hstream]
  | false =>
    obtain ⟨n, hn⟩ := Option.isSome_iff_exists.mp (henv f hfmem)
    refine ⟨(start_stream (load_ok n s.player)).1, ?_⟩
    simp [play_action, hne, hcur, hsel, hstream, hf, hn]

lemma prev_action_ok (env : String → Option Nat) (s : RState)
    (hN : 0 < s.files.length)
    (hperm : s.playlist.Perm ((List.range s.files.length).map Int.ofNat))
    (henv : ∀ f ∈ s.files, (env (mediaPath f)).isSome = true) :
    ∃ sel p', prev_action env s = .ok { s with playing_index := (s.playing_index - 1) % (s.files.length : Int), selected_index := sel, player := p' } := by
  have hlen : s.playlist.length = s.files.length := by
    have h := hperm.length_eq
    simpa using h
  have hne : ¬ s.files.length = 0 := by omega
  have hNZ : (0 : Int) < (s.files.length : Int) := by exact_mod_cast hN
  obtain ⟨sel, hsel, hselmem⟩ :=
    pyGet_some s.playlist ((s.playing_index - 1) % (s.files.length : Int))
      (Int.emod_nonneg _ (ne_of_gt hNZ))
      (by have := Int.emod_lt_of_pos (s.playing_index - 1) hNZ
          have h2 := Int.emod_nonneg (s.playing_index - 1) (ne_of_gt hNZ)
          omega)
  have hselrange : 0 ≤ sel ∧ sel < (s.files.length : Int) := by
    have hmem : sel ∈ (List.range s.files.length).map Int.ofNat :=
      hperm.mem_iff.mp hselmem
    simp only [List.mem_map, List.mem_range] at hmem
    obtain ⟨k, hk, rfl⟩ := hmem
    have hco : (Int.ofNat k) = (k : Int) := rfl
    rw [hco]
    omega
  cases hact : s.player.is_active with
  | false =>
    refine ⟨sel, s.player, ?_⟩
    simp [prev_action, hne, hsel, hact]
  | true =>
    have hhs : s.player.has_stream = true := by
      unfold PlayerState.is_active at hact
      exact (Bool.and_eq_true_iff.mp hact).1
    obtain ⟨p', hplay⟩ := play_action_aligned env
      { s with playing_index := (s.playing_index - 1) % (s.files.length : Int),
               selected_index := sel,
               player := PlayerState.mk 0 0 false false false }
      sel hN hlen (by simpa using hsel) rfl hselrange.1 hselrange.2 henv
    refine ⟨sel, p', ?_⟩
    simp only [prev_action, hne, if_false, hsel]
    simp only [stop_action, stop_stream, hact, if_true, hhs]
    simp only [hplay]
    simp [Except.map]

lemma skip_action_ok (env : String → Option Nat) (s : RState)
    (hN : 0 < s.files.length)
    (hperm : s.playlist.Perm ((List.range s.files.length).map Int.ofNat))
    (henv : ∀ f ∈ s.files, (env (mediaPath f)).isSome = true) :
    ∃ sel p', skip_action env s = .ok { s with playing_index := (s.playing_index + 1) % (s.files.length : Int), selected_index := sel, player := p' } := by
  have hlen : s.playlist.length = s.files.length := by
    have h := hperm.length_eq
    simpa using h
  have hne : ¬ s.files.length = 0 := by omega
  have hNZ : (0 : Int) < (s.files.length : Int) := by exact_mod_cast hN
  obtain ⟨sel, hsel, hselmem⟩ :=
    pyGet_some s.playlist ((s.playing_index + 1) % (s.files.length : Int))
      (Int.emod_nonneg _ (ne_of_gt hNZ))
      (by have := Int.emod_lt_of_pos (s.playing_index + 1) hNZ
          have h2 := Int.emod_nonneg (s.playing_index + 1) (ne_of_gt hNZ)
          omega)
  have hselrange : 0 ≤ sel ∧ sel < (s.files.length : Int) := by
    have hmem : sel ∈ (List.range s.files.length).map Int.ofNat :=
      hperm.mem_iff.mp hselmem
    simp only [List.mem_map, List.mem_range] at hmem
    obtain ⟨k, hk, rfl⟩ := hmem
    have hco : (Int.ofNat k) = (k : Int) := rfl
    rw [hco]
    omega
  cases hact : s.player.is_active with
  | false =>
    refine ⟨sel, s.player, ?_⟩
    simp [skip_action, hne, hsel, hact]
  | true =>
    have hhs : s.player.has_stream = true := by
      unfold PlayerState.is_active at hact
      exact (Bool.and_eq_true_iff.mp hact).1
    obtain ⟨p', hplay⟩ := play_action_aligned env
      { s with playing_index := (s.playing_index + 1) % (s.files.length : Int),
               selected_index := sel,
               player := PlayerState.mk 0 0 false false false }
      sel hN hlen (by simpa using hsel) rfl hselrange.1 hselrange.2 henv
    refine ⟨sel, p', ?_⟩
    simp only [skip_action, hne, if_false, hsel]
    simp only [stop_action, stop_stream, hact, if_true, hhs]
    simp only [hplay]
    simp [Except.map]

/-- C6: on any playlist (valid permutation play order, readable
files), `previous()` then `next()` — and `next()` then `previous()` —
with no completion notification in between, returns `playing_index`
to its original value modulo N (for N = 0 both are no-ops and the
value is untouched; `% 0` is the identity). -/
theorem nav_round_trip (env : String → Option Nat) (s : RState)
    (hperm : s.playlist.Perm ((List.range s.files.length).map Int.ofNat))
    (henv : ∀ f ∈ s.files, (env (mediaPath f)).isSome = true) :
    (∃ s', (prev_action env s).bind (skip_action env) = .ok s' ∧
        s'.playing_index = s.playing_index % (s.files.length : Int)) ∧
    (∃ s'', (skip_action env s).bind (prev_action env) = .ok s'' ∧
        s''.playing_index = s.playing_index % (s.files.length : Int)) := by
  by_cases hN : s.files.length = 0
  · constructor
    · refine ⟨s, ?_, ?_⟩
      · simp [prev_action, skip_action, hN, Except.bind]
      · simp [hN, Int.emod_zero]
    · refine ⟨s, ?_, ?_⟩
      · simp [prev_action, skip_action, hN, Except.bind]
      · simp [hN, Int.emod_zero]
  · have hN' : 0 < s.files.length := Nat.pos_of_ne_zero hN
    constructor
    · obtain ⟨sel, p', hprev⟩ := prev_action_ok env s hN' hperm henv
      obtain ⟨sel2, p'', hskip⟩ := skip_action_ok env
        { s with playing_index := (s.playing_index - 1) % (s.files.length : Int),
                 selected_index := sel, player := p' }
        hN' (by simpa using hperm) henv
      refine ⟨{ s with playing_index := ((s.playing_index - 1) % (s.files.length : Int) + 1) % (s.files.length : Int), selected_index := sel2, player := p'' }, ?_, ?_⟩
      · rw [hprev]
        exact hskip
      · dsimp only
        rw [emod_shift_add, sub_add_cancel]
    · obtain ⟨sel, p', hskip⟩ := skip_action_ok env s hN' hperm henv
      obtain ⟨sel2, p'', hprev⟩ := prev_action_ok env
        { s with playing_index := (s.playing_index + 1) % (s.files.length : Int),
                 selected_index := sel, player := p' }
        hN' (by simpa using hperm) henv
      refine ⟨{ s with playing_index := ((s.playing_index + 1) % (s.files.length : Int) - 1) % (s.files.length : Int), selected_index := sel2, player := p'' }, ?_, ?_⟩
      · rw [hskip]
        exact hprev
      · dsimp only
        rw [emod_shift_sub, add_sub_cancel_right]

/-- C6 witness: a two-track library in sequential order. -/
theorem nav_round_trip_witness :
    ∃ s', (prev_action (fun _ => some 5) (RState.mk ["a.wav", "b.wav"] [0, 1] 0 0 false (PlayerState.mk 0 0 false false false))).bind (skip_action (fun _ => some 5)) = .ok s' ∧
      s'.playing_index = (RState.mk ["a.wav", "b.wav"] [0, 1] 0 0 false (PlayerState.mk 0 0 false false false)).playing_index % ((RState.mk ["a.wav", "b.wav"] [0, 1] 0 0 false (PlayerState.mk 0 0 false false false)).files.length : Int) :=
  (nav_round_trip (fun _ => some 5)
    (RState.mk ["a.wav", "b.wav"] [0, 1] 0 0 false (PlayerState.mk 0 0 false false false))
    (by decide) (by intro f hf; rfl)).1
